import Mathlib

/-!
Verification of the hello-google-map client-side coordination core.

Each TypeScript module relevant to the verified claims is shallowly embedded:
pure functions become Lean functions, module-level mutable state becomes
explicit state passing, JavaScript numbers become rationals (no arithmetic
beyond equality and zero-tests occurs on them in the verified code paths),
and fallible / promise-returning code returns an explicit result type, where
a rejected promise or thrown exception is an `Except.error`.
-/

namespace HelloMap

/-! ## Application FSM (src/types/fsm.ts) -/

/-- The application states of `AppState` in src/types/fsm.ts. -/
inductive AppStateType where
  | initializing
  | configError
  | mapReady
  | mapError
  | fetchingLocation
  | locationReady
  | locationError
  | useDefaultLocation
  | searchingBusinesses
  | businessesReady
  | searchError
  | partialResults
  | displayComplete
deriving DecidableEq, Fintype

open AppStateType

/-- `StateTransitions` table of src/types/fsm.ts: valid next states per state. -/
def StateTransitions : AppStateType → List AppStateType
  | initializing => [configError, mapReady]
  | mapReady => [mapError, fetchingLocation]
  | fetchingLocation => [locationError, locationReady, useDefaultLocation]
  | locationReady => [searchingBusinesses]
  | searchingBusinesses => [searchError, businessesReady, partialResults]
  | businessesReady => [displayComplete]
  | partialResults => [displayComplete]
  | useDefaultLocation => [searchingBusinesses]
  | configError => []
  | mapError => []
  | locationError => [useDefaultLocation]
  | searchError => [displayComplete]
  | displayComplete => []

/-- `isValidTransition` of src/types/fsm.ts. -/
def isValidTransition (currentState newState : AppStateType) : Bool :=
  (StateTransitions currentState).contains newState

/-- `isTerminalState` of src/types/fsm.ts: no valid transitions out. -/
def isTerminalState (state : AppStateType) : Bool :=
  (StateTransitions state).length == 0

/-- `getValidTransitions` of src/types/fsm.ts. -/
def getValidTransitions (state : AppStateType) : List AppStateType :=
  StateTransitions state

/-- The application state-transition relation exactly as the spec (§4.5) lists
it, written as the set of pairs the spec names. -/
def specTransitionPairs : List (AppStateType × AppStateType) :=
  [(initializing, configError), (initializing, mapReady),
   (mapReady, mapError), (mapReady, fetchingLocation),
   (fetchingLocation, locationError), (fetchingLocation, locationReady),
   (fetchingLocation, useDefaultLocation),
   (locationError, useDefaultLocation),
   (useDefaultLocation, searchingBusinesses),
   (locationReady, searchingBusinesses),
   (searchingBusinesses, searchError), (searchingBusinesses, businessesReady),
   (searchingBusinesses, partialResults),
   (searchError, displayComplete),
   (businessesReady, displayComplete),
   (partialResults, displayComplete)]

/-! ## State manager (src/utils/stateManager.ts)

The `StateManager` class holds a current state and a list of subscribed
callbacks.  Callbacks are opaque to the manager; we model each subscribed
callback by a numeric identifier, and an invocation of a callback with a
state is recorded as an emitted `(identifier, state)` notification. -/

/-- The mutable fields of the `StateManager` class. -/
structure StateManager where
  currentState : AppStateType
  stateChangeCallbacks : List Nat
deriving DecidableEq

/-- `StateManager.transitionTo`: validates against the table; on an invalid
transition returns `false` and changes nothing (invoking no callback); on a
valid one updates the state, notifies every callback with the new state, and
returns `true`.  The function is total: no exception is thrown. -/
def StateManager.transitionTo (m : StateManager) (newState : AppStateType) :
    Bool × StateManager × List (Nat × AppStateType) :=
  if isValidTransition m.currentState newState then
    (true, { m with currentState := newState },
     m.stateChangeCallbacks.map (fun cb => (cb, newState)))
  else
    (false, m, [])

/-- `StateManager.reset`: unconditionally sets the current state back to
`INITIALIZING` and notifies every subscribed callback with the new state.
No validation against the transition table is performed. -/
def StateManager.reset (m : StateManager) :
    StateManager × List (Nat × AppStateType) :=
  ({ m with currentState := initializing },
   m.stateChangeCallbacks.map (fun cb => (cb, initializing)))

/-! ## Shared value types

JavaScript numbers are modelled as rationals; the verified code paths only
copy them and test them for zero / `undefined`, never compute with them. -/

/-- A lat/lng pair (`Coordinates` / `LatLng` of src/types). -/
structure LatLngQ where
  lat : ℚ
  lng : ℚ
deriving DecidableEq

/-- A thrown JavaScript exception / rejected promise value. -/
structure JsError where
  message : String
deriving DecidableEq

deriving instance DecidableEq for Except

/-- JavaScript truthiness of a `string | null` value: `null` and the empty
string are falsy. -/
def jsTruthyStr : Option String → Bool
  | none => false
  | some s => s != ""

/-! ## Business data model (src/types/business.ts, as constructed by the
providers) -/

/-- A business category (`categories[]` entries). -/
structure Category where
  id : String
  name : String
  icon : Option String
deriving DecidableEq

/-- A photo record; the source's `prefix`/`suffix` fields are named
`urlPre`/`urlSuf` here. -/
structure Photo where
  id : String
  urlPre : String
  urlSuf : String
deriving DecidableEq

/-- Opening-hours record built by the Foursquare mapping. -/
structure BusinessHours where
  status : Option String
  isOpen : Option Bool
deriving DecidableEq

/-- The `location` sub-record of a `Business`. -/
structure BusinessLocation where
  address : Option String
  crossStreet : Option String
  city : Option String
  state : Option String
  postalCode : Option String
  country : Option String
  coordinates : LatLngQ
  formattedAddress : Option (List String)
deriving DecidableEq

/-- A canonical business record as produced by the Provider Adapters. -/
structure Business where
  id : String
  name : String
  location : BusinessLocation
  categories : Option (List Category)
  website : Option String
  tel : Option String
  rating : Option ℚ
  distance : Option ℚ
  description : Option String
  hours : Option BusinessHours
  photos : Option (List Photo)
deriving DecidableEq

/-! ## Foursquare provider (src/providers/foursquareProvider.ts; the same
class is inlined in src/services/businessService.ts)

`getNearbyBusinesses` awaits `fetch`, returns `[]` when the HTTP response is
not ok, otherwise awaits `response.json()` and maps the raw places.  The
environment's behaviour at the suspension points is the explicit argument
`fetchResult`: a thrown `fetch` is `Except.error`, and a response carries its
`ok` flag and the outcome of `response.json()`. -/

/-- A raw Foursquare place as consumed by the adapter's mapping; `Option`
models absent (`undefined`) fields and optional chaining. -/
structure RawPlace where
  fsqId : String
  name : String
  locationAddress : Option String
  locationCrossStreet : Option String
  locationLocality : Option String
  locationAdminRegion : Option String
  locationPostcode : Option String
  locationCountry : Option String
  geocodesMainLat : Option ℚ
  geocodesMainLng : Option ℚ
  locationFormattedAddress : Option String
  categories : Option (List Category)
  website : Option String
  tel : Option String
  rating : Option ℚ
  distance : Option ℚ
  description : Option String
  hoursPresent : Bool
  hoursStatus : Option String
  hoursIsOpen : Option Bool
  photos : Option (List Photo)
deriving DecidableEq

/-- The parsed body of a Foursquare search response; `data.results` may be
absent (`data.results || []`). -/
structure FsqPayload where
  results : Option (List RawPlace)
deriving DecidableEq

/-- An HTTP response as seen by the adapter: its `ok` flag and the outcome of
`response.json()` (which may itself throw). -/
structure FsqHttpResponse where
  ok : Bool
  json : Except JsError FsqPayload
deriving DecidableEq

/-- The `(data.results || []).map(place => ...)` mapping of the adapter. -/
def mapRawPlace (place : RawPlace) : Business :=
  { id := place.fsqId
    name := place.name
    location :=
      { address := place.locationAddress
        crossStreet := place.locationCrossStreet
        city := place.locationLocality
        state := place.locationAdminRegion
        postalCode := place.locationPostcode
        country := place.locationCountry
        coordinates :=
          { lat := place.geocodesMainLat.getD 0
            lng := place.geocodesMainLng.getD 0 }
        -- `place.location.formatted_address ? [place.location.formatted_address] : undefined`
        formattedAddress :=
          if jsTruthyStr place.locationFormattedAddress then
            place.locationFormattedAddress.map (fun s => [s])
          else none }
    categories := place.categories
    website := place.website
    tel := place.tel
    rating := place.rating
    distance := place.distance
    description := place.description
    hours :=
      if place.hoursPresent then
        some { status := place.hoursStatus, isOpen := place.hoursIsOpen }
      else none
    photos := place.photos }

/-- `FoursquareProvider.getNearbyBusinesses`.  A resolved promise is
`Except.ok`, a rejected one `Except.error`.  The adapter has no try/catch: a
thrown `fetch` or `response.json()` propagates; only a non-ok response is
converted into `[]`. -/
def foursquareGetNearbyBusinesses
    (fetchResult : Except JsError FsqHttpResponse) :
    Except JsError (List Business) :=
  match fetchResult with
  | .error e => .error e
  | .ok response =>
    if !response.ok then .ok []
    else
      match response.json with
      | .error e => .error e
      | .ok data => .ok ((data.results.getD []).map mapRawPlace)

/-! ## Business service (src/services/businessService.ts) -/

/-- The `BusinessState` constants of the business service. -/
inductive BusinessStateType where
  | IDLE
  | SEARCHING
  | READY
  | ERROR
  | INTERACTING
deriving DecidableEq

/-- The business service's `getNearbyBusinesses`: sets the state to
`SEARCHING`, awaits the provider, and on success stores `READY` and returns
the businesses; on any rejection of the provider call it also stores `READY`
and resolves with `[]` (the catch branch).  The initial business state is
irrelevant: the function overwrites it unconditionally, so it is not a
parameter.  The returned pair is (resolved value, final business state). -/
def businessServiceGetNearbyBusinesses
    (providerResult : Except JsError (List Business)) :
    List Business × BusinessStateType :=
  match providerResult with
  | .ok businesses => (businesses, .READY)
  | .error _ => ([], .READY)

/-! ## Composite provider (revision with website overlay) and static JSON
provider (src/providers: CompositeProvider, StaticJsonProvider) -/

/-- An entry of the static JSON override data. -/
structure StaticBusinessData where
  id : String
  website : String
deriving DecidableEq

/-- `StaticJsonProvider.getWebsiteOverride`: the `website` of the first entry
whose `id` matches, else `null`. -/
def getWebsiteOverride (staticData : List StaticBusinessData)
    (businessId : String) : Option String :=
  (staticData.find? (fun item => item.id == businessId)).map (fun m => m.website)

/-- `CompositeProvider.getNearbyBusinesses` (overlay revision): queries the
first provider (its resolved list is the argument `primaryResult`; `none`
models an absent provider, yielding `[]`), then per business replaces the
website when `getWebsiteOverride` returns a truthy value, keeping the
original otherwise. -/
def compositeGetNearbyBusinesses (staticData : List StaticBusinessData)
    (primaryResult : Option (List Business)) : List Business :=
  match primaryResult with
  | none => []
  | some businesses =>
    businesses.map (fun business =>
      let websiteOverride := getWebsiteOverride staticData business.id
      if jsTruthyStr websiteOverride then
        { business with website := websiteOverride }
      else
        business)

/-! ## Result shape (src/types/result.ts) -/

/-- The `Result<T, E>` tagged union: `{success: true, data}` or
`{success: false, error}`. -/
inductive JsResult (α : Type) (ε : Type) where
  | success (data : α)
  | failure (error : ε)
deriving DecidableEq

/-- `success === true`? -/
def JsResult.isSuccess {α ε} : JsResult α ε → Bool
  | .success _ => true
  | .failure _ => false

/-! ## Location actions (src/actions/locationActions.ts) -/

/-- The `LocationState` constants of the location service. -/
inductive LocationStateType where
  | IDLE
  | FETCHING
  | GEOCODING
  | READY
  | ERROR
deriving DecidableEq

/-- One entry of a geocoder result's `address_components`. -/
structure GeoComponent where
  types : List String
  longName : String
deriving DecidableEq

/-- One geocoder result. -/
structure GeoResult where
  formattedAddress : String
  addressComponents : List GeoComponent
  placeId : String
deriving DecidableEq

/-- A parsed geocoding API response body. -/
structure GeoResponse where
  status : String
  results : List GeoResult
deriving DecidableEq

/-- The `data` payload `reverseGeocode` builds on success. -/
structure ReverseGeocodeData where
  formattedAddress : String
  addressComponents : List (String × String)
  postalCode : String
  placeId : String
  lat : ℚ
  lng : ℚ
deriving DecidableEq

/-- The inner `component.types.forEach` of `reverseGeocode`: first-wins
accumulation of `addressComponents[type]` and postal-code detection. -/
def scanTypes (acc : List (String × String)) (postal : Option String)
    (longName : String) : List String → List (String × String) × Option String
  | [] => (acc, postal)
  | t :: ts =>
    let acc' := if (acc.lookup t).isNone then acc ++ [(t, longName)] else acc
    let postal' :=
      if t == "postal_code" && postal.isNone then some longName else postal
    scanTypes acc' postal' longName ts

/-- The `for (const component of result.address_components)` loop. -/
def scanComponents (acc : List (String × String)) (postal : Option String) :
    List GeoComponent → List (String × String) × Option String
  | [] => (acc, postal)
  | c :: cs =>
    let r := scanTypes acc postal c.longName c.types
    scanComponents r.1 r.2 cs

/-- The `for (const result of data.results)` loop, with the
`if (postalCode.found) break;` early exit after each result. -/
def scanResults (acc : List (String × String)) (postal : Option String) :
    List GeoResult → List (String × String) × Option String
  | [] => (acc, postal)
  | r :: rs =>
    let res := scanComponents acc postal r.addressComponents
    if res.2.isSome then res
    else scanResults res.1 res.2 rs

/-- `reverseGeocode` of src/actions/locationActions.ts.  The surrounding
try/catch converts any thrown exception into a failure `Result`, so the
function is total; a thrown `fetch`/`json()` is the `Except.error` case of
`fetchResult`.  (The leading `latitude === undefined` validation cannot fire
in the typed model, where both coordinates are always present.) -/
def reverseGeocode (latitude longitude : ℚ) (apiKey : String)
    (fetchResult : Except JsError GeoResponse) :
    JsResult ReverseGeocodeData JsError :=
  if apiKey == "" then
    .failure { message := "Google Maps API key is required" }
  else
    match fetchResult with
    | .error e => .failure e
    | .ok data =>
      match data.results with
      | [] => .failure { message := "Reverse geocoding error: " ++ data.status }
      | first :: _ =>
        if data.status == "OK" then
          let scanned := scanResults [] none data.results
          .success
            { formattedAddress := first.formattedAddress
              addressComponents := scanned.1
              postalCode := (scanned.2.getD "Unknown")
              placeId := first.placeId
              lat := latitude
              lng := longitude }
        else
          .failure { message := "Reverse geocoding error: " ++ data.status }

/-- Configured default location; `none` components model absent or
non-numeric values (`typeof DEFAULT_LOCATION.lat !== 'number'`). -/
structure DefaultLocationConfig where
  lat : Option ℚ
  lng : Option ℚ
  name : Option String
deriving DecidableEq

/-- A resolved `Location` value. -/
structure ResolvedLocation where
  lat : ℚ
  lng : ℚ
  name : String
  source : Option String
deriving DecidableEq

/-- `fetchDefaultLocation` of src/actions/locationActions.ts: validates the
configured default location (`none` for the whole config models a missing
`DEFAULT_LOCATION` object) and returns it with `name || 'Default Location'`
and `source: 'Default Configuration'`. -/
def fetchDefaultLocation (config : Option DefaultLocationConfig) :
    JsResult ResolvedLocation JsError :=
  match config with
  | none =>
    .failure { message := "Default location is not properly configured" }
  | some c =>
    match c.lat, c.lng with
    | some la, some ln =>
      .success
        { lat := la
          lng := ln
          -- `DEFAULT_LOCATION.name || 'Default Location'` (empty string is falsy)
          name := if jsTruthyStr c.name then c.name.getD "" else "Default Location"
          source := some "Default Configuration" }
    | _, _ =>
      .failure { message := "Default location is not properly configured" }

/-! ## Location service (src/services/locationService.ts) -/

/-- `getPostalCode` of the location service: stores `GEOCODING`, awaits
`reverseGeocode`, and returns the extracted postal code with state `READY`
on success, or the literal `"Unknown"` with state `ERROR` on failure.  The
catch branch is unreachable in the model because `reverseGeocode` is total;
in either branch the promise resolves (never rejects).  The returned pair is
(resolved string, final location state). -/
def getPostalCode (latitude longitude : ℚ) (apiKey : String)
    (fetchResult : Except JsError GeoResponse) :
    String × LocationStateType :=
  match reverseGeocode latitude longitude apiKey fetchResult with
  | .success d => (d.postalCode, .READY)
  | .failure _ => ("Unknown", .ERROR)

/-- `getDefaultLocation` of the location service: synchronous; returns the
configured default on success and a hardcoded New York City literal when
`fetchDefaultLocation` fails.  The function body never touches
`currentLocationState`. -/
def getDefaultLocation (config : Option DefaultLocationConfig) :
    ResolvedLocation :=
  match fetchDefaultLocation config with
  | .success d => d
  | .failure _ =>
    { lat := (40.7128 : ℚ)
      lng := (-74.0060 : ℚ)
      name := "New York City (Emergency Fallback)"
      source := none }

/-- The location service's state field is not read or written anywhere in
`getDefaultLocation`; calling it in any service state returns the same value
and leaves the state untouched. -/
def getDefaultLocationInState (config : Option DefaultLocationConfig)
    (st : LocationStateType) : ResolvedLocation × LocationStateType :=
  (getDefaultLocation config, st)

/-- Spec-side description of the postal-code scan: the first address
component — scanning the returned results in order, and within each result
its components in order — whose `types` contain `postal_code`. -/
def firstPostalCodeSpec (results : List GeoResult) : Option String :=
  ((results.flatMap (fun r => r.addressComponents)).find?
    (fun comp => comp.types.contains "postal_code")).map (fun c => c.longName)

/-! ## Map actions and map service (src/actions/mapActions.ts,
src/services/mapService.ts)

The Google Maps widget is external: it is modelled as a center/zoom pair, and
its `fitBounds` method as an uninterpreted function parameter `fitImpl`.
Markers are JavaScript objects compared by reference; each modelled marker
carries a unique numeric identity, and the set of markers currently shown on
the widget (those whose `setMap` target is the map) is the `attached` list of
identities. -/

/-- The `MapState` constants of the map service. -/
inductive MapStateType where
  | UNINITIALIZED
  | INITIALIZING
  | READY
  | ERROR
  | UPDATING
deriving DecidableEq

/-- A marker object: unique identity plus its position. -/
structure MapMarker where
  id : Nat
  pos : LatLngQ
deriving DecidableEq

/-- The map widget's view state. -/
structure MapWidget where
  center : LatLngQ
  zoom : ℚ
deriving DecidableEq

/-- A `google.maps.LatLngBounds`: the positions extended into it; empty list
is the valid "empty bounds" value (`bounds.isEmpty()`). -/
structure Bounds where
  positions : List LatLngQ
deriving DecidableEq

/-- Payload of a successful `createMapBounds`. -/
structure CreateBoundsData where
  bounds : Bounds
  isEmpty : Bool
  positionsCount : Nat
deriving DecidableEq

/-- `createMapBounds` of src/actions/mapActions.ts.  Every modelled position
has both fields, so every position is extended into the bounds. -/
def createMapBounds (positions : List LatLngQ) :
    JsResult CreateBoundsData JsError :=
  .success
    { bounds := { positions := positions }
      isEmpty := positions.length == 0
      positionsCount := positions.length }

/-- Payload of a successful `fitMapBounds`. -/
structure FitBoundsData where
  previousCenter : LatLngQ
  previousZoom : ℚ
  currentCenter : LatLngQ
  currentZoom : ℚ
  bounds : Bounds
deriving DecidableEq

/-- `fitMapBounds` of src/actions/mapActions.ts: validates the map and bounds
arguments and rejects empty bounds with a failure `Result` before calling the
widget's `fitBounds` (`fitImpl`); otherwise applies `fitImpl` and reports the
previous and current view.  Returns the result together with the (possibly
updated) widget. -/
def fitMapBounds (fitImpl : MapWidget → Bounds → MapWidget)
    (mapWidget : Option MapWidget) (bounds : Option Bounds) :
    JsResult FitBoundsData JsError × Option MapWidget :=
  match mapWidget with
  | none => (.failure { message := "Map instance is required" }, none)
  | some m =>
    match bounds with
    | none => (.failure { message := "Bounds object is required" }, some m)
    | some b =>
      if b.positions.isEmpty then
        (.failure { message := "Cannot fit to empty bounds" }, some m)
      else
        let m' := fitImpl m b
        (.success
          { previousCenter := m.center
            previousZoom := m.zoom
            currentCenter := m'.center
            currentZoom := m'.zoom
            bounds := b }, some m')

/-- Statistics payload of `clearMapMarkers`. -/
structure ClearStats where
  totalMarkers : Nat
  clearedCount : Nat
  failedCount : Nat
deriving DecidableEq

/-- `clearMapMarkers` of src/actions/mapActions.ts: calls `setMap(null)` on
each marker (detaching it from the widget) and reports counts.  Every
modelled marker is a real marker object with a `setMap` function, so all are
cleared and the `Result` is always a success. -/
def clearMapMarkers (markers : List MapMarker) (attached : List Nat) :
    ClearStats × List Nat :=
  ({ totalMarkers := markers.length
     clearedCount := markers.length
     failedCount := 0 },
   attached.filter (fun mid => !(markers.any (fun m => m.id == mid))))

/-- Marker role passed to `addMarker` (`markerType`). -/
inductive MarkerRole where
  | user
  | business
deriving DecidableEq

/-- Role selector passed to `clearMarkers` (`type`). -/
inductive ClearType where
  | all
  | user
  | business
deriving DecidableEq

/-- The module-level mutable state of the map service: the widget, the legacy
`markers` array, the per-role arrays, the identities attached to the widget,
a fresh-identity counter, and `currentMapState`. -/
structure MapSvc where
  widget : Option MapWidget
  markers : List MapMarker
  userMarkers : List MapMarker
  businessMarkers : List MapMarker
  attached : List Nat
  nextId : Nat
  state : MapStateType
deriving DecidableEq

/-- `initializeMap` on a fresh module: creates the widget when the container
element exists (state `READY`), else leaves it `null` with state `ERROR`. -/
def initializeMapSvc (elementExists : Bool) (initialCenter : LatLngQ)
    (initialZoom : ℚ) : MapSvc :=
  if elementExists then
    { widget := some { center := initialCenter, zoom := initialZoom }
      markers := []
      userMarkers := []
      businessMarkers := []
      attached := []
      nextId := 0
      state := .READY }
  else
    { widget := none
      markers := []
      userMarkers := []
      businessMarkers := []
      attached := []
      nextId := 0
      state := .ERROR }

/-- `addMarker` of the map service: returns `null` untouched when the map is
not initialized; otherwise moves through `UPDATING`, creates the marker via
`createMapMarker` (which always succeeds in the model: both position fields
are present and the map instance exists), pushes it onto the legacy array and
the role array, and ends in `READY`. -/
def addMarkerSvc (position : LatLngQ) (markerType : MarkerRole)
    (svc : MapSvc) : Option MapMarker × MapSvc :=
  match svc.widget with
  | none => (none, svc)
  | some _ =>
    let marker : MapMarker := { id := svc.nextId, pos := position }
    (some marker,
     { svc with
        markers := svc.markers ++ [marker]
        userMarkers :=
          if markerType = .user then svc.userMarkers ++ [marker]
          else svc.userMarkers
        businessMarkers :=
          if markerType = .user then svc.businessMarkers
          else svc.businessMarkers ++ [marker]
        attached := svc.attached ++ [marker.id]
        nextId := svc.nextId + 1
        state := .READY })

/-- `clearMarkers` of the map service (role-scoped revision): collects the
markers of the requested role(s), empties those role arrays, detaches the
collected markers via `clearMapMarkers`, resets or filters the legacy array,
and ends in `READY` (`clearMapMarkers` always succeeds in the model, so the
`ERROR` branches are unreachable). -/
def clearMarkersSvc (ty : ClearType) (svc : MapSvc) : MapSvc :=
  let markersToRemove :=
    (if ty = .all ∨ ty = .user then svc.userMarkers else []) ++
    (if ty = .all ∨ ty = .business then svc.businessMarkers else [])
  let userMarkers' :=
    if ty = .all ∨ ty = .user then [] else svc.userMarkers
  let businessMarkers' :=
    if ty = .all ∨ ty = .business then [] else svc.businessMarkers
  let (_stats, attached') := clearMapMarkers markersToRemove svc.attached
  let markers' :=
    if ty = .all then []
    else svc.markers.filter
      (fun m => !(markersToRemove.any (fun r => r.id == m.id)))
  { svc with
      markers := markers'
      userMarkers := userMarkers'
      businessMarkers := businessMarkers'
      attached := attached'
      state := .READY }

/-- `clearBusinessMarkers` of the map service: `clearBusinessData()` (which
always returns `{success: true}`) followed by `clearMarkers('business')`. -/
def clearBusinessMarkersSvc (svc : MapSvc) : MapSvc :=
  clearMarkersSvc .business svc

/-- `createBounds` of the map service: `createMapBounds` never fails in the
model, so its `data.bounds` is returned. -/
def createBoundsSvc (positions : List LatLngQ) : Bounds :=
  match createMapBounds positions with
  | .success d => d.bounds
  | .failure _ => { positions := positions }

/-- `fitBounds` of the map service: a no-op when the map is not initialized;
otherwise moves through `UPDATING`, calls `fitMapBounds`, and ends in `READY`
on success or `ERROR` on failure, with the widget updated only on success. -/
def fitBoundsSvc (fitImpl : MapWidget → Bounds → MapWidget)
    (bounds : Bounds) (svc : MapSvc) : MapSvc :=
  match svc.widget with
  | none => svc
  | some w =>
    match fitMapBounds fitImpl (some w) (some bounds) with
    | (.success _, w') => { svc with widget := w', state := .READY }
    | (.failure _, w') => { svc with widget := w', state := .ERROR }

/-! ## Orchestration trace of one resolution cycle (src/main.ts)

`displayLocation` runs on the single-threaded event loop: its observable map
operations form a sequential trace of events.  `updateLocationUI` centers the
map and adds the user marker only under the truthiness check
`coordinates && coordinates.lat && coordinates.lng` (a numeric field is falsy
exactly when it is zero).  `fetchPostalCode` and `getNearbyBusinesses` never
reject (see `getPostalCode` and `businessServiceGetNearbyBusinesses`), so the
`Promise.all` join always resolves and the catch branches of
`displayLocation` are unreachable; the trace is the happy path. -/

/-- One observable map-surface operation of a resolution cycle. -/
inductive CycleEvent where
  /-- `setCenter(coordinates)` inside `updateLocationUI`. -/
  | setCenter (c : LatLngQ)
  /-- `addMarker(coordinates, ..., 'user')` inside `updateLocationUI`. -/
  | addUserMarker (c : LatLngQ)
  /-- the `fetchPostalCode` promise is created. -/
  | startPostalCodeFetch
  /-- the `getNearbyBusinesses` promise is created. -/
  | startBusinessSearch
  /-- the `await Promise.all([...])` suspension point. -/
  | awaitJoin
  /-- `clearBusinessMarkers()` at the top of `updateBusinessUI`. -/
  | clearBusinessMarkersEv
  /-- a business marker is added (`addMarker(position, {...})`) for the
  business with this `id`. -/
  | addBusinessMarker (id : String)
deriving DecidableEq

/-- The map operations of `updateLocationUI`: behind the truthiness guard on
both coordinate fields, `setCenter` then the user-role `addMarker`. -/
def updateLocationUIEvents (c : LatLngQ) : List CycleEvent :=
  if c.lat ≠ 0 ∧ c.lng ≠ 0 then [.setCenter c, .addUserMarker c] else []

/-- The map operations of `updateBusinessUI` (reached through
`displayNearbyBusinesses` with the current business state): it always clears
business markers first; in the `ERROR` state or with no businesses it stops
there; otherwise it adds one marker per business, capped at the four labels
A-D (the preceding `processBusinessData` applies the same limit of 4), every
business having a `location.coordinates` record in the model. -/
def updateBusinessUIEvents (businesses : List Business)
    (st : BusinessStateType) : List CycleEvent :=
  .clearBusinessMarkersEv ::
    (if st = .ERROR then []
     else if businesses.isEmpty then []
     else (businesses.take 4).map (fun b => .addBusinessMarker b.id))

/-- The event trace of one `displayLocation(latitude, longitude, source)`
call: the first `updateLocationUI` (coordinates only), the creation of the
two parallel promises, the `Promise.all` join, the second `updateLocationUI`
(now with the postal code), and `displayNearbyBusinesses` with the business
list resolved by the join and the business state `st` current at that
point. -/
def displayLocationTrace (c : LatLngQ) (businesses : List Business)
    (st : BusinessStateType) : List CycleEvent :=
  updateLocationUIEvents c
    ++ [.startPostalCodeFetch, .startBusinessSearch, .awaitJoin]
    ++ updateLocationUIEvents c
    ++ updateBusinessUIEvents businesses st

/-- Recognizer for business-marker events. -/
def CycleEvent.isAddBusinessMarker : CycleEvent → Bool
  | .addBusinessMarker _ => true
  | _ => false

/-- Recognizer for user-marker events. -/
def CycleEvent.isAddUserMarker : CycleEvent → Bool
  | .addUserMarker _ => true
  | _ => false

/-- The markers tracked for a role selector (spec side: the "marker set" of a
role). -/
def roleMarkerSet (ty : ClearType) (svc : MapSvc) : List MapMarker :=
  match ty with
  | .user => svc.userMarkers
  | .business => svc.businessMarkers
  | .all => svc.userMarkers ++ svc.businessMarkers

/-! ## Concrete fixtures used by counterexamples and witnesses -/

/-- A concrete business record used as a test fixture. -/
def sampleBusiness : Business :=
  { id := "biz-1"
    name := "Sample Coffee Shop"
    location :=
      { address := some "123 Brew St"
        crossStreet := none
        city := some "Testville"
        state := none
        postalCode := some "12345"
        country := none
        coordinates := { lat := 1, lng := 2 }
        formattedAddress := some ["123 Brew St, Testville"] }
    categories := some [{ id := "c1", name := "Cafe", icon := none }]
    website := some "https://primary.example"
    tel := none
    rating := some 4
    distance := some 100
    description := none
    hours := none
    photos := none }

/-- A concrete reverse-geocoding response used as a test fixture: the first
result has no postal-code component, the second one does. -/
def demoGeoResponse : GeoResponse :=
  { status := "OK"
    results :=
      [{ formattedAddress := "A Street"
         addressComponents := [{ types := ["route"], longName := "A Street" }]
         placeId := "p1" },
       { formattedAddress := "B Street"
         addressComponents :=
           [{ types := ["locality"], longName := "Townsville" },
            { types := ["postal_code"], longName := "90210" }]
         placeId := "p2" }] }

/-! ## Theorems -/

/-- Bridge between the code's `includes` check and list membership. -/
theorem isValidTransition_iff_mem (s s' : AppStateType) :
    isValidTransition s s' = true ↔ s' ∈ StateTransitions s := by
  exact List.elem_iff

/-- C1: for every pair `(currentState, newState)` such that `newState` is not
in the transition table's entry for `currentState`, the state manager's
`transitionTo(newState)` returns `false`, leaves the current state unchanged
and invokes no callback (and, being total, does not throw); for every pair in
the table it returns `true`, the current state becomes `newState`, and every
subscribed callback is notified with the new state. -/
theorem stateManager_transitionTo_validated (m : StateManager)
    (newState : AppStateType) :
    (newState ∉ StateTransitions m.currentState →
      m.transitionTo newState = (false, m, [])) ∧
    (newState ∈ StateTransitions m.currentState →
      (m.transitionTo newState).1 = true ∧
      (m.transitionTo newState).2.1 =
        { m with currentState := newState } ∧
      (m.transitionTo newState).2.2 =
        m.stateChangeCallbacks.map (fun cb => (cb, newState))) := by
  constructor
  · intro h
    have hv : isValidTransition m.currentState newState = false := by
      rw [← Bool.not_eq_true, isValidTransition_iff_mem]
      exact h
    simp [StateManager.transitionTo, hv]
  · intro h
    have hv : isValidTransition m.currentState newState = true :=
      (isValidTransition_iff_mem _ _).mpr h
    simp [StateManager.transitionTo, hv]

/-- Witness for C1 at concrete inputs: `INITIALIZING -> MAP_READY` is in the
table and accepted; `INITIALIZING -> DISPLAY_COMPLETE` is absent and
rejected without a state change. -/
theorem stateManager_transitionTo_validated_witness :
    mapReady ∈ StateTransitions initializing ∧
    ((StateManager.mk initializing [0]).transitionTo mapReady).1 = true ∧
    ((StateManager.mk initializing [0]).transitionTo mapReady).2.1 =
      StateManager.mk mapReady [0] ∧
    displayComplete ∉ StateTransitions initializing ∧
    (StateManager.mk initializing [0]).transitionTo displayComplete =
      (false, StateManager.mk initializing [0], []) :=
  ⟨by decide,
   ((stateManager_transitionTo_validated ⟨initializing, [0]⟩ mapReady).2
     (by decide)).1,
   ((stateManager_transitionTo_validated ⟨initializing, [0]⟩ mapReady).2
     (by decide)).2.1,
   by decide,
   (stateManager_transitionTo_validated ⟨initializing, [0]⟩ displayComplete).1
     (by decide)⟩

/-- C2: the transition table equals exactly the relation given in the spec
(§4.5), and `isTerminalState` holds for exactly `CONFIG_ERROR`, `MAP_ERROR`
and `DISPLAY_COMPLETE`. -/
theorem stateTransitions_match_spec :
    (∀ s s' : AppStateType,
      s' ∈ StateTransitions s ↔ (s, s') ∈ specTransitionPairs) ∧
    (∀ s : AppStateType,
      isTerminalState s = true ↔
        (s = configError ∨ s = mapError ∨ s = displayComplete)) := by
  decide

/-- C10: `reset()` sets the current state to `INITIALIZING` from every state
— the transition table is not consulted — and notifies every subscribed
callback with the new state; in particular the three terminal states are
escapable through `reset` even though `transitionTo` rejects (returns
`false`, state unchanged) every move out of them. -/
theorem stateManager_reset_always_reinitializes (m : StateManager) :
    (m.reset.1 = { m with currentState := initializing } ∧
     m.reset.2 = m.stateChangeCallbacks.map (fun cb => (cb, initializing))) ∧
    (isTerminalState m.currentState = true →
      ∀ newState : AppStateType,
        (m.transitionTo newState).1 = false ∧
        (m.transitionTo newState).2.1 = m) := by
  refine ⟨⟨rfl, rfl⟩, ?_⟩
  intro hterm newState
  have hempty : StateTransitions m.currentState = [] := by
    rcases m with ⟨s, cbs⟩
    cases s <;> simp_all [isTerminalState, StateTransitions]
  have hv : isValidTransition m.currentState newState = false := by
    simp [isValidTransition, hempty]
  simp [StateManager.transitionTo, hv]

/-- Witness for C10 at a concrete input: `DISPLAY_COMPLETE` is terminal, yet
`reset` returns to `INITIALIZING` (notifying both callbacks) while
`transitionTo` rejects leaving it. -/
theorem stateManager_reset_always_reinitializes_witness :
    (StateManager.mk displayComplete [0, 1]).reset.1 =
      StateManager.mk initializing [0, 1] ∧
    (StateManager.mk displayComplete [0, 1]).reset.2 =
      [(0, initializing), (1, initializing)] ∧
    ((StateManager.mk displayComplete [0, 1]).transitionTo initializing).1 =
      false :=
  ⟨(stateManager_reset_always_reinitializes ⟨displayComplete, [0, 1]⟩).1.1,
   (stateManager_reset_always_reinitializes ⟨displayComplete, [0, 1]⟩).1.2,
   ((stateManager_reset_always_reinitializes ⟨displayComplete, [0, 1]⟩).2
     (by decide) initializing).1⟩

/-- C3 counterexample: at the Provider Adapter level the claim fails — when
the underlying `fetch` throws (a transport error), the adapter's
`getNearbyBusinesses` has no try/catch and the rejection propagates instead
of resolving with `[]`. -/
theorem foursquare_rejects_on_transport_error :
    foursquareGetNearbyBusinesses
        (Except.error { message := "network failure" }) =
      Except.error { message := "network failure" } ∧
    foursquareGetNearbyBusinesses
        (Except.error { message := "network failure" }) ≠
      Except.ok [] := by
  exact ⟨rfl, by decide⟩

/-- C3 (amended): the Business Resolver's `getNearbyBusinesses` always
resolves with business state `READY`; whenever the Provider Adapter call
rejects — for any reason, including a thrown `fetch` — the resolver resolves
with `[]`; and the Provider Adapter itself resolves with `[]` on an API
error (a non-ok HTTP response), though a thrown transport error propagates
out of the adapter and is only absorbed at the resolver level. -/
theorem getNearbyBusinesses_failure_recovery
    (fetchResult : Except JsError FsqHttpResponse) :
    (businessServiceGetNearbyBusinesses
        (foursquareGetNearbyBusinesses fetchResult)).2 =
      BusinessStateType.READY ∧
    (∀ e : JsError, foursquareGetNearbyBusinesses fetchResult = .error e →
      businessServiceGetNearbyBusinesses
          (foursquareGetNearbyBusinesses fetchResult) =
        ([], BusinessStateType.READY)) ∧
    (∀ response : FsqHttpResponse, fetchResult = .ok response →
      response.ok = false →
      foursquareGetNearbyBusinesses fetchResult = .ok []) := by
  refine ⟨?_, ?_, ?_⟩
  · cases foursquareGetNearbyBusinesses fetchResult <;> rfl
  · intro e he
    rw [he]
    rfl
  · intro response hr hok
    subst hr
    simp [foursquareGetNearbyBusinesses, hok]

/-- Witness for C3 (amended) at concrete inputs: a thrown `fetch` is absorbed
by the resolver into `([], READY)`, and a non-ok response yields `[]` already
at the adapter. -/
theorem getNearbyBusinesses_failure_recovery_witness :
    businessServiceGetNearbyBusinesses
        (foursquareGetNearbyBusinesses
          (Except.error { message := "timeout" })) =
      ([], BusinessStateType.READY) ∧
    foursquareGetNearbyBusinesses
        (Except.ok { ok := false, json := Except.ok { results := none } }) =
      Except.ok [] :=
  ⟨(getNearbyBusinesses_failure_recovery
      (Except.error { message := "timeout" })).2.1
    { message := "timeout" } rfl,
   (getNearbyBusinesses_failure_recovery
      (Except.ok { ok := false, json := Except.ok { results := none } })).2.2
    { ok := false, json := Except.ok { results := none } } rfl rfl⟩

/-- C4: starting from an initialized map with no markers, after
`addMarker(c1, {}, 'user')` then `addMarker(c2, {}, 'business')` then
`clearMarkers('business')`, exactly one marker remains tracked (in the
legacy array and in the role arrays) and attached to the map, and it is the
user marker at `c1`; moreover clearing any role whose marker set is empty is
total (never errors): it ends in `READY` and detaches nothing. -/
theorem marker_role_isolation (c1 c2 center : LatLngQ) (zoom : ℚ) :
    ((clearMarkersSvc .business
        (addMarkerSvc c2 .business
          (addMarkerSvc c1 .user
            (initializeMapSvc true center zoom)).2).2).markers =
      [{ id := 0, pos := c1 }] ∧
     (clearMarkersSvc .business
        (addMarkerSvc c2 .business
          (addMarkerSvc c1 .user
            (initializeMapSvc true center zoom)).2).2).userMarkers =
      [{ id := 0, pos := c1 }] ∧
     (clearMarkersSvc .business
        (addMarkerSvc c2 .business
          (addMarkerSvc c1 .user
            (initializeMapSvc true center zoom)).2).2).businessMarkers =
      [] ∧
     (clearMarkersSvc .business
        (addMarkerSvc c2 .business
          (addMarkerSvc c1 .user
            (initializeMapSvc true center zoom)).2).2).attached = [0] ∧
     (addMarkerSvc c1 .user (initializeMapSvc true center zoom)).1 =
      some { id := 0, pos := c1 }) ∧
    (∀ (svc : MapSvc) (ty : ClearType), roleMarkerSet ty svc = [] →
      (clearMarkersSvc ty svc).state = MapStateType.READY ∧
      (clearMarkersSvc ty svc).attached = svc.attached) := by
  constructor
  · exact ⟨rfl, rfl, rfl, rfl, rfl⟩
  · intro svc ty hempty
    cases ty <;>
      simp_all [roleMarkerSet, clearMarkersSvc, clearMapMarkers]

/-- Witness for C4 at concrete inputs, including a `clearMarkers('business')`
call on a freshly initialized map with no markers at all. -/
theorem marker_role_isolation_witness :
    (clearMarkersSvc .business
        (addMarkerSvc { lat := 3, lng := 4 } .business
          (addMarkerSvc { lat := 1, lng := 2 } .user
            (initializeMapSvc true { lat := 0, lng := 0 } 14)).2).2).markers =
      [{ id := 0, pos := { lat := 1, lng := 2 } }] ∧
    (clearMarkersSvc .business
        (initializeMapSvc true { lat := 0, lng := 0 } 14)).state =
      MapStateType.READY :=
  ⟨(marker_role_isolation { lat := 1, lng := 2 } { lat := 3, lng := 4 }
      { lat := 0, lng := 0 } 14).1.1,
   ((marker_role_isolation { lat := 1, lng := 2 } { lat := 3, lng := 4 }
      { lat := 0, lng := 0 } 14).2
     (initializeMapSvc true { lat := 0, lng := 0 } 14) .business
     (by decide)).1⟩

/-- C7: fitting a bounds built from zero coordinates never throws and leaves
the map's center and zoom unchanged: `fitMapBounds` returns a failure
`Result` on the empty-bounds check before ever invoking the widget's fit
operation, so the outcome does not depend on the fit implementation at
all. -/
theorem fitBounds_empty_bounds_noop
    (fitImpl : MapWidget → Bounds → MapWidget) (svc : MapSvc) :
    ((fitBoundsSvc fitImpl (createBoundsSvc []) svc).widget = svc.widget) ∧
    (∀ w : MapWidget,
      fitMapBounds fitImpl (some w) (some (createBoundsSvc [])) =
        (.failure { message := "Cannot fit to empty bounds" }, some w)) ∧
    (∀ (g : MapWidget → Bounds → MapWidget) (w : MapWidget),
      fitMapBounds fitImpl (some w) (some (createBoundsSvc [])) =
        fitMapBounds g (some w) (some (createBoundsSvc []))) := by
  refine ⟨?_, fun w => rfl, fun g w => rfl⟩
  cases h : svc.widget with
  | none => simp [fitBoundsSvc, h]
  | some w => simp [fitBoundsSvc, h, fitMapBounds, createBoundsSvc,
      createMapBounds]

/-- Once the postal code is found, the types loop never overwrites it. -/
theorem scanTypes_postal_found (longName v : String) (ts : List String) :
    ∀ acc : List (String × String),
      (scanTypes acc (some v) longName ts).2 = some v := by
  induction ts with
  | nil => intro acc; rfl
  | cons t ts ih => intro acc; simpa [scanTypes] using ih _

/-- The postal code computed by the types loop, starting from not-found: the
component's `longName` exactly when its `types` contain `postal_code`. -/
theorem scanTypes_postal_search (longName : String) (ts : List String) :
    ∀ acc : List (String × String),
      (scanTypes acc none longName ts).2 =
        (if ts.contains "postal_code" then some longName else none) := by
  induction ts with
  | nil => intro acc; rfl
  | cons t ts ih =>
    intro acc
    by_cases ht : t = "postal_code"
    · subst ht
      simp [scanTypes, scanTypes_postal_found]
    · have hne : "postal_code" ≠ t := fun h => ht h.symm
      have hbeq : (t == "postal_code") = false := by
        simpa using ht
      simp [scanTypes, hbeq, ih, hne]

/-- Once the postal code is found, the components loop keeps it. -/
theorem scanComponents_postal_found (v : String) (cs : List GeoComponent) :
    ∀ (acc : List (String × String)),
      (scanComponents acc (some v) cs).2 = some v := by
  induction cs with
  | nil => intro acc; rfl
  | cons c cs ih =>
    intro acc
    have h := scanTypes_postal_found c.longName v c.types acc
    show (scanComponents (scanTypes acc (some v) c.longName c.types).1
        (scanTypes acc (some v) c.longName c.types).2 cs).2 = some v
    rw [h]
    exact ih _

/-- The postal code computed by the components loop, starting from
not-found: the `longName` of the first component whose `types` contain
`postal_code`. -/
theorem scanComponents_postal_search (cs : List GeoComponent) :
    ∀ (acc : List (String × String)),
      (scanComponents acc none cs).2 =
        ((cs.find? (fun c => c.types.contains "postal_code")).map
          (fun c => c.longName)) := by
  induction cs with
  | nil => intro acc; rfl
  | cons c cs ih =>
    intro acc
    have h := scanTypes_postal_search c.longName c.types acc
    show (scanComponents (scanTypes acc none c.longName c.types).1
        (scanTypes acc none c.longName c.types).2 cs).2 = _
    by_cases hc : c.types.contains "postal_code"
    · rw [if_pos hc] at h
      rw [h, scanComponents_postal_found]
      rw [show List.find? (fun x => x.types.contains "postal_code") (c :: cs)
          = some c from List.find?_cons_of_pos _ hc]
      rfl
    · rw [if_neg hc] at h
      rw [h, ih]
      rw [show List.find? (fun x => x.types.contains "postal_code") (c :: cs)
          = List.find? (fun x => x.types.contains "postal_code") cs from
        List.find?_cons_of_neg _ hc]

/-- `find?` over an appended list searches the left part first. -/
theorem list_find?_append {α : Type} (p : α → Bool) (l1 l2 : List α) :
    (l1 ++ l2).find? p =
      match l1.find? p with
      | some x => some x
      | none => l2.find? p := by
  induction l1 with
  | nil => simp
  | cons a l ih =>
    by_cases h : p a
    · simp [List.find?_cons_of_pos _ h]
    · simp [List.find?_cons_of_neg _ (by simpa using h), ih]

/-- The postal code computed by the results loop (with its early break)
equals the spec-side first-component scan. -/
theorem scanResults_postal (rs : List GeoResult) :
    ∀ (acc : List (String × String)),
      (scanResults acc none rs).2 = firstPostalCodeSpec rs := by
  induction rs with
  | nil => intro acc; rfl
  | cons r rs ih =>
    intro acc
    have h := scanComponents_postal_search r.addressComponents acc
    show (if (scanComponents acc none r.addressComponents).2.isSome then
            scanComponents acc none r.addressComponents
          else
            scanResults (scanComponents acc none r.addressComponents).1
              (scanComponents acc none r.addressComponents).2 rs).2 =
        firstPostalCodeSpec (r :: rs)
    cases hf : r.addressComponents.find?
        (fun c => c.types.contains "postal_code") with
    | some comp =>
      have h2 : (scanComponents acc none r.addressComponents).2 =
          some comp.longName := by
        rw [h, hf]
        rfl
      rw [h2, if_pos (show (some comp.longName).isSome = true from rfl), h2]
      have hspec : firstPostalCodeSpec (r :: rs) = some comp.longName := by
        simp only [firstPostalCodeSpec, List.flatMap_cons, list_find?_append,
          hf]
        rfl
      rw [hspec]
    | none =>
      have h2 : (scanComponents acc none r.addressComponents).2 = none := by
        rw [h, hf]
        rfl
      rw [h2, if_neg (by simp), ih]
      have hspec : firstPostalCodeSpec (r :: rs) = firstPostalCodeSpec rs := by
        simp only [firstPostalCodeSpec, List.flatMap_cons, list_find?_append,
          hf]
      rw [hspec]

/-- C5: `getPostalCode` never rejects.  When reverse geocoding succeeds
(non-empty `OK` response, key present) it returns the first postal-code
component found scanning the results in order — first result first, first
matching component within it — or the literal `"Unknown"` when no result
contains one, and the location state is `READY`; on any failure (missing
key, thrown fetch/parse, non-`OK` status, empty results) it returns
`"Unknown"` and the location state is `ERROR`. -/
theorem getPostalCode_best_effort (latitude longitude : ℚ) (apiKey : String)
    (fetchResult : Except JsError GeoResponse) :
    (∀ data : GeoResponse, fetchResult = .ok data → apiKey ≠ "" →
        data.status = "OK" → data.results ≠ [] →
      getPostalCode latitude longitude apiKey fetchResult =
        ((firstPostalCodeSpec data.results).getD "Unknown",
          LocationStateType.READY)) ∧
    (apiKey = "" →
      getPostalCode latitude longitude apiKey fetchResult =
        ("Unknown", LocationStateType.ERROR)) ∧
    (∀ e : JsError, fetchResult = .error e →
      getPostalCode latitude longitude apiKey fetchResult =
        ("Unknown", LocationStateType.ERROR)) ∧
    (∀ data : GeoResponse, fetchResult = .ok data →
        (data.status ≠ "OK" ∨ data.results = []) →
      getPostalCode latitude longitude apiKey fetchResult =
        ("Unknown", LocationStateType.ERROR)) := by
  refine ⟨?_, ?_, ?_, ?_⟩
  · intro data hf hk hst hres
    subst hf
    have hbeq : (apiKey == "") = false := by simpa using hk
    obtain ⟨status, results⟩ := data
    simp only at hst hres
    subst hst
    cases results with
    | nil => exact absurd rfl hres
    | cons first rest =>
      simp [getPostalCode, reverseGeocode, hbeq]
      rw [scanResults_postal]
  · intro hk
    subst hk
    rfl
  · intro e hf
    subst hf
    cases hb : (apiKey == "") <;>
      simp [getPostalCode, reverseGeocode, hb]
  · intro data hf hbad
    subst hf
    cases hb : (apiKey == "") with
    | true => simp [getPostalCode, reverseGeocode, hb]
    | false =>
      obtain ⟨status, results⟩ := data
      cases results with
      | nil => simp [getPostalCode, reverseGeocode, hb]
      | cons first rest =>
        have hst : status ≠ "OK" := by
          rcases hbad with h | h
          · exact h
          · exact absurd h (by simp)
        have hstb : (status == "OK") = false := by simpa using hst
        simp [getPostalCode, reverseGeocode, hb, hstb]

/-- Witness for C5 at concrete inputs: a successful two-result response whose
postal code sits in the second result yields `("90210", READY)`; a missing
API key yields `("Unknown", ERROR)`. -/
theorem getPostalCode_best_effort_witness :
    getPostalCode 1 2 "key" (Except.ok demoGeoResponse) =
      ("90210", LocationStateType.READY) ∧
    getPostalCode 1 2 "" (Except.ok demoGeoResponse) =
      ("Unknown", LocationStateType.ERROR) := by
  constructor
  · have h :=
      (getPostalCode_best_effort 1 2 "key" (Except.ok demoGeoResponse)).1
        demoGeoResponse rfl (by decide) rfl (by decide)
    rw [h]
    rfl
  · exact (getPostalCode_best_effort 1 2 "" (Except.ok demoGeoResponse)).2.1
      rfl

/-- C6: `getDefaultLocation` is synchronous and total (never throws) and
does not change the location state.  Whenever the configured default
location has numeric `lat` and `lng` it returns exactly that coordinate,
tagged `source: 'Default Configuration'`, with the configured name whenever
one is set (non-empty); when the configuration is invalid it returns the
hardcoded New York City literal instead of throwing.  The result depends
only on the configuration, so it is identical after any number of prior
failures (any prior location state `st`). -/
theorem getDefaultLocation_deterministic (config : Option DefaultLocationConfig)
    (st : LocationStateType) :
    ((getDefaultLocationInState config st).2 = st ∧
     (getDefaultLocationInState config st).1 = getDefaultLocation config) ∧
    (∀ (c : DefaultLocationConfig) (la ln : ℚ), config = some c →
        c.lat = some la → c.lng = some ln →
      (getDefaultLocation config).lat = la ∧
      (getDefaultLocation config).lng = ln ∧
      (getDefaultLocation config).source = some "Default Configuration" ∧
      (∀ n : String, c.name = some n → n ≠ "" →
        (getDefaultLocation config).name = n)) ∧
    ((config = none ∨
        (∀ c : DefaultLocationConfig, config = some c →
          (c.lat = none ∨ c.lng = none))) →
      getDefaultLocation config =
        { lat := (40.7128 : ℚ)
          lng := (-74.0060 : ℚ)
          name := "New York City (Emergency Fallback)"
          source := none }) := by
  refine ⟨⟨rfl, rfl⟩, ?_, ?_⟩
  · intro c la ln hc hla hln
    subst hc
    refine ⟨?_, ?_, ?_, ?_⟩
    · simp [getDefaultLocation, fetchDefaultLocation, hla, hln]
    · simp [getDefaultLocation, fetchDefaultLocation, hla, hln]
    · simp [getDefaultLocation, fetchDefaultLocation, hla, hln]
    · intro n hn hne
      have ht : jsTruthyStr (some n) = true := by
        simpa [jsTruthyStr] using hne
      simp [getDefaultLocation, fetchDefaultLocation, hla, hln, hn, ht]
  · intro hbad
    rcases hbad with h | h
    · subst h
      rfl
    · cases config with
      | none => rfl
      | some c =>
        rcases h c rfl with hla | hln
        · simp [getDefaultLocation, fetchDefaultLocation, hla]
        · cases hl : c.lat <;>
            simp [getDefaultLocation, fetchDefaultLocation, hl, hln]

/-- Witness for C6 at concrete inputs: the repository's configured Denver
default is returned exactly, and a `null` configuration falls back to the
hardcoded New York City literal. -/
theorem getDefaultLocation_deterministic_witness :
    (getDefaultLocation (some
        { lat := some (39.7392 : ℚ)
          lng := some (-104.9903 : ℚ)
          name := some "Denver, CO" })).lat = (39.7392 : ℚ) ∧
    (getDefaultLocation (some
        { lat := some (39.7392 : ℚ)
          lng := some (-104.9903 : ℚ)
          name := some "Denver, CO" })).name = "Denver, CO" ∧
    getDefaultLocation none =
      { lat := (40.7128 : ℚ)
        lng := (-74.0060 : ℚ)
        name := "New York City (Emergency Fallback)"
        source := none } :=
  ⟨((getDefaultLocation_deterministic (some
      { lat := some (39.7392 : ℚ)
        lng := some (-104.9903 : ℚ)
        name := some "Denver, CO" }) .IDLE).2.1
      { lat := some (39.7392 : ℚ)
        lng := some (-104.9903 : ℚ)
        name := some "Denver, CO" } (39.7392 : ℚ) (-104.9903 : ℚ)
      rfl rfl rfl).1,
   ((getDefaultLocation_deterministic (some
      { lat := some (39.7392 : ℚ)
        lng := some (-104.9903 : ℚ)
        name := some "Denver, CO" }) .IDLE).2.1
      { lat := some (39.7392 : ℚ)
        lng := some (-104.9903 : ℚ)
        name := some "Denver, CO" } (39.7392 : ℚ) (-104.9903 : ℚ)
      rfl rfl rfl).2.2.2 "Denver, CO" rfl (by decide),
   (getDefaultLocation_deterministic none .ERROR).2.2 (Or.inl rfl)⟩

/-- C8 counterexample: the static source contains an entry for the
business's id whose `website` is the empty string, so the claim requires
the website to be replaced by that value; but the JavaScript truthiness
check `if (websiteOverride)` treats the empty string as falsy and the
primary website is kept unchanged. -/
theorem composite_overlay_counterexample :
    getWebsiteOverride [{ id := "biz-1", website := "" }]
        sampleBusiness.id = some "" ∧
    compositeGetNearbyBusinesses [{ id := "biz-1", website := "" }]
        (some [sampleBusiness]) = [sampleBusiness] ∧
    sampleBusiness.website ≠ some "" := by
  exact ⟨rfl, rfl, by decide⟩

/-- C8 (amended): the composite adapter returns the primary provider's
businesses in the same order; a business's website is replaced by the static
source's value exactly when the source's first entry for the business's id
has a non-empty website string, and every other field — and the website of
every business without such an entry — is the primary value unchanged. -/
theorem composite_overlay (staticData : List StaticBusinessData)
    (primary : List Business) :
    (compositeGetNearbyBusinesses staticData (some primary)).length =
      primary.length ∧
    (∀ (i : Nat) (b : Business), primary.get? i = some b →
      ∃ b' : Business,
        (compositeGetNearbyBusinesses staticData (some primary)).get? i =
          some b' ∧
        b'.id = b.id ∧ b'.name = b.name ∧ b'.location = b.location ∧
        b'.categories = b.categories ∧ b'.tel = b.tel ∧
        b'.rating = b.rating ∧ b'.distance = b.distance ∧
        b'.description = b.description ∧ b'.hours = b.hours ∧
        b'.photos = b.photos ∧
        ((∃ e : StaticBusinessData,
            staticData.find? (fun it => it.id == b.id) = some e ∧
            e.website ≠ "" ∧ b'.website = some e.website) ∨
         ((∀ e : StaticBusinessData,
            staticData.find? (fun it => it.id == b.id) = some e →
              e.website = "") ∧
          b'.website = b.website))) := by
  constructor
  · simp [compositeGetNearbyBusinesses]
  · intro i b hb
    have hget :
        (compositeGetNearbyBusinesses staticData (some primary)).get? i =
          some (if jsTruthyStr (getWebsiteOverride staticData b.id) then
              { b with website := getWebsiteOverride staticData b.id }
            else b) := by
      show (primary.map _).get? i = _
      rw [List.get?_map, hb]
      rfl
    cases hov : staticData.find? (fun it => it.id == b.id) with
    | none =>
      have hno : getWebsiteOverride staticData b.id = none := by
        simp [getWebsiteOverride, hov]
      refine ⟨b, ?_, rfl, rfl, rfl, rfl, rfl, rfl, rfl, rfl, rfl, rfl, ?_⟩
      · rw [hget, hno]
        rfl
      · exact Or.inr ⟨fun e he => by simp [hov] at he, rfl⟩
    | some e =>
      have hsome : getWebsiteOverride staticData b.id = some e.website := by
        simp [getWebsiteOverride, hov]
      by_cases he : e.website = ""
      · have hfalsy : jsTruthyStr (getWebsiteOverride staticData b.id) =
            false := by
          simp [hsome, jsTruthyStr, he]
        refine ⟨b, ?_, rfl, rfl, rfl, rfl, rfl, rfl, rfl, rfl, rfl, rfl, ?_⟩
        · rw [hget, hfalsy]
          rfl
        · refine Or.inr ⟨fun e' he' => ?_, rfl⟩
          simp [hov] at he'
          rw [← he']
          exact he
      · have htruthy : jsTruthyStr (getWebsiteOverride staticData b.id) =
            true := by
          simp [hsome, jsTruthyStr, he]
        refine ⟨{ b with website := some e.website }, ?_, rfl, rfl, rfl, rfl,
          rfl, rfl, rfl, rfl, rfl, rfl, ?_⟩
        · rw [hget, htruthy, hsome]
          rfl
        · refine Or.inl ⟨e, ?_, he, rfl⟩
          simp [hov]

/-- Witness for C8 (amended) at a concrete input: one business and one
matching non-empty override entry. -/
theorem composite_overlay_witness :
    ∃ b' : Business,
      (compositeGetNearbyBusinesses
          [{ id := "biz-1", website := "https://override.example" }]
          (some [sampleBusiness])).get? 0 = some b' ∧
      b'.id = sampleBusiness.id ∧ b'.name = sampleBusiness.name ∧
      b'.location = sampleBusiness.location ∧
      b'.categories = sampleBusiness.categories ∧
      b'.tel = sampleBusiness.tel ∧
      b'.rating = sampleBusiness.rating ∧
      b'.distance = sampleBusiness.distance ∧
      b'.description = sampleBusiness.description ∧
      b'.hours = sampleBusiness.hours ∧
      b'.photos = sampleBusiness.photos ∧
      ((∃ e : StaticBusinessData,
          List.find? (fun it => it.id == sampleBusiness.id)
              [{ id := "biz-1", website := "https://override.example" }] =
            some e ∧
          e.website ≠ "" ∧ b'.website = some e.website) ∨
       ((∀ e : StaticBusinessData,
          List.find? (fun it => it.id == sampleBusiness.id)
              [{ id := "biz-1", website := "https://override.example" }] =
            some e → e.website = "") ∧
        b'.website = sampleBusiness.website)) :=
  (composite_overlay
    [{ id := "biz-1", website := "https://override.example" }]
    [sampleBusiness]).2 0 sampleBusiness rfl

/-- C9 counterexample: for a resolved coordinate with `lat = 0` (a legal
coordinate on the equator) the truthiness check in `updateLocationUI` skips
both the center update and the user marker, yet business markers are still
added — the trace contains a business marker and no user marker at all, so
the claimed ordering fails for this resolution cycle. -/
theorem displayLocation_ordering_counterexample :
    ((displayLocationTrace { lat := 0, lng := 10 } [sampleBusiness]
        .READY).all (fun e => !e.isAddUserMarker)) = true ∧
    ((displayLocationTrace { lat := 0, lng := 10 } [sampleBusiness]
        .READY).any (fun e => e.isAddBusinessMarker)) = true := by
  exact ⟨by decide, by decide⟩

/-- C9 (amended): for every resolution cycle whose resolved coordinate has
nonzero `lat` and `lng`, the map-center update and the user-role `addMarker`
happen before the joined postal-code/business-search pair is awaited, and
every business-marker event in the trace is preceded by a user-marker
event. -/
theorem displayLocation_user_marker_first (c : LatLngQ)
    (businesses : List Business) (st : BusinessStateType)
    (hlat : c.lat ≠ 0) (hlng : c.lng ≠ 0) :
    ((displayLocationTrace c businesses st).take 5 =
      [.setCenter c, .addUserMarker c, .startPostalCodeFetch,
       .startBusinessSearch, .awaitJoin]) ∧
    (∀ (i : Nat) (e : CycleEvent),
      (displayLocationTrace c businesses st).get? i = some e →
      e.isAddBusinessMarker = true →
      ∃ j : Nat, j < i ∧
        (displayLocationTrace c businesses st).get? j =
          some (.addUserMarker c)) := by
  have hui : updateLocationUIEvents c = [.setCenter c, .addUserMarker c] := by
    simp [updateLocationUIEvents, hlat, hlng]
  have htr : displayLocationTrace c businesses st =
      CycleEvent.setCenter c :: .addUserMarker c :: .startPostalCodeFetch ::
        .startBusinessSearch :: .awaitJoin :: .setCenter c ::
        .addUserMarker c :: .clearBusinessMarkersEv ::
        (if st = .ERROR then []
         else if businesses.isEmpty then []
         else (businesses.take 4).map
           (fun b => CycleEvent.addBusinessMarker b.id)) := by
    simp [displayLocationTrace, updateBusinessUIEvents, hui]
  constructor
  · rw [htr]
    rfl
  · intro i e hget hbus
    rw [htr] at hget
    rcases i with _ | _ | _ | _ | _ | _ | _ | _ | n
    all_goals try
      (simp only [List.get?] at hget
       injection hget with h
       subst h
       simp [CycleEvent.isAddBusinessMarker] at hbus)
    refine ⟨1, by omega, ?_⟩
    rw [htr]
    rfl

/-- Witness for C9 (amended) at a concrete input: a nonzero coordinate with
one business. -/
theorem displayLocation_user_marker_first_witness :
    (displayLocationTrace { lat := (40 : ℚ), lng := (-105 : ℚ) }
        [sampleBusiness] .READY).take 5 =
      [.setCenter { lat := (40 : ℚ), lng := (-105 : ℚ) },
       .addUserMarker { lat := (40 : ℚ), lng := (-105 : ℚ) },
       .startPostalCodeFetch, .startBusinessSearch, .awaitJoin] :=
  (displayLocation_user_marker_first
    { lat := (40 : ℚ), lng := (-105 : ℚ) } [sampleBusiness] .READY
    (by decide) (by decide)).1

end HelloMap
